import Mathlib

/-!
Verification of the relationship/validation model layer of the `hw_django`
board-game-club application (`main_game/models.py`, `main_game/views.py`).

Conventions of the embedding:
* timestamps are integers; the current time (`get_datetime()` in the source)
  is passed explicitly as a `now : Int` parameter;
* fresh primary keys (`uuid4` defaults) are passed explicitly as `Nat`
  parameters;
* fallible Python code (code that may raise `ValidationError` etc.) becomes
  functions into `Except`; an `Except.error` result models an exception
  raised before any row was written, so an error persists nothing;
* database tables are lists of rows; queryset operations (`filter`,
  `exists`, `in ... .all()`) become the corresponding list operations.
-/

/-- Errors raised by the validators in `main_game/models.py`.  Each carries
the parameters the source attaches to the `ValidationError`
(`params={'created': dt}`, `params={'modified': dt}`,
`params={'phone_number': number}`; `check_level` attaches no params). -/
inductive ValidationError where
  | futureCreated (dt : Int)
  | futureModified (dt : Int)
  | levelOutOfRange
  | badPhone (number : String)
deriving DecidableEq, Repr

/-- `check_created` (models.py:37): raises iff `dt > get_datetime()`. -/
def check_created (now dt : Int) : Except ValidationError Unit :=
  if dt > now then .error (.futureCreated dt) else .ok ()

/-- `check_modified` (models.py:53): raises iff `dt > get_datetime()`. -/
def check_modified (now dt : Int) : Except ValidationError Unit :=
  if dt > now then .error (.futureModified dt) else .ok ()

/-- `check_level` (models.py:69): raises iff `number < 0 or number > 100`. -/
def check_level (number : Int) : Except ValidationError Unit :=
  if number < 0 ∨ number > 100 then .error .levelOutOfRange else .ok ()

/-- The character class `[0-9]` of the phone regex: an ASCII decimal digit. -/
def isDigitChar (c : Char) : Bool := '0' ≤ c && c ≤ '9'

/-- Consume exactly `n` characters matching `[0-9]` from the front of the
input, returning the remainder; `none` if fewer than `n` digits are present.
This is the deterministic matcher for the fixed-count part
`[0-9]{3}[0-9]{7}` (= ten digits) of the phone regex. -/
def consumeDigits : Nat → List Char → Option (List Char)
  | 0, rest => some rest
  | _ + 1, [] => none
  | n + 1, c :: rest => if isDigitChar c then consumeDigits n rest else none

/-- Python's `$` anchor outside MULTILINE mode: it matches at the end of the
string, and also just before a newline at the end of the string. -/
def dollarEnd (rest : List Char) : Bool := rest == [] || rest == ['\n']

/-- Ten digits followed by the Python `$` anchor. -/
def digitsThenEnd (n : Nat) (cs : List Char) : Bool :=
  match consumeDigits n cs with
  | some rest => dollarEnd rest
  | none => false

/-- `re.compile(r'^\+7[0-9]{3}[0-9]{7}$').search(number)` (models.py:91-92):
since the pattern is anchored with `^` and the MULTILINE flag is not set,
`search` can only match at position 0; the literal `\+7` is followed by ten
`[0-9]` characters and Python's `$` anchor. -/
def phoneRegexSearch (cs : List Char) : Bool :=
  match cs with
  | c1 :: c2 :: rest => c1 == '+' && c2 == '7' && digitsThenEnd 10 rest
  | _ => false

/-- `phone_number_validator` (models.py:82): raises a `ValidationError`
carrying the offending number unless the regex search succeeds. -/
def phone_number_validator (number : String) : Except ValidationError Unit :=
  if phoneRegexSearch number.data then .ok ()
  else .error (.badPhone number)

/-- Written from the spec's words, for comparison with the code: the string
is the literal characters `+7` followed by exactly 10 decimal digits and
nothing else. -/
def plusSevenTenDigits (cs : List Char) : Bool :=
  match cs with
  | c1 :: c2 :: rest => c1 == '+' && c2 == '7' && rest.length == 10 && rest.all isDigitChar
  | _ => false

/-- The language the code actually accepts: `+7` followed by exactly 10
digits, optionally followed by one trailing newline. -/
def plusSevenTenDigitsOptNL (cs : List Char) : Bool :=
  plusSevenTenDigits cs ||
    (cs.getLast? == some '\n' && plusSevenTenDigits cs.dropLast)

theorem consumeDigits_eq (n : Nat) (cs : List Char) :
    consumeDigits n cs =
      if n ≤ cs.length ∧ (cs.take n).all isDigitChar then some (cs.drop n)
      else none := by
  induction n generalizing cs with
  | zero => simp [consumeDigits]
  | succ n ih =>
    cases cs with
    | nil => simp [consumeDigits]
    | cons c rest =>
      simp only [consumeDigits, List.length_cons, List.take_succ_cons,
        List.all_cons, List.drop_succ_cons, ih]
      by_cases hc : isDigitChar c = true
      · simp [hc, Nat.succ_le_succ_iff]
      · simp [hc]

theorem digitsThenEnd_iff (n : Nat) (cs : List Char) :
    digitsThenEnd n cs = true ↔
      (cs.length = n ∧ cs.all isDigitChar = true) ∨
        (cs.length = n + 1 ∧ cs.dropLast.all isDigitChar = true ∧
          cs.getLast? = some '\n') := by
  rw [digitsThenEnd, consumeDigits_eq]
  by_cases h : n ≤ cs.length ∧ (cs.take n).all isDigitChar = true
  · simp only [if_pos h, dollarEnd]
    obtain ⟨hlen, htake⟩ := h
    constructor
    · intro hd
      rcases Bool.or_eq_true_iff.mp hd with hd | hd
      · left
        have hdrop : cs.drop n = [] := by simpa using hd
        have hlen' : cs.length = n := by
          have := List.drop_eq_nil_iff.mp hdrop
          omega
        refine ⟨hlen', ?_⟩
        have htc : cs.take n = cs := List.take_of_length_le (le_of_eq hlen')
        rwa [htc] at htake
      · right
        have hdrop : cs.drop n = ['\n'] := by simpa using hd
        have hlen' : cs.length = n + 1 := by
          have := congrArg List.length hdrop
          simp only [List.length_drop, List.length_cons, List.length_nil] at this
          omega
        refine ⟨hlen', ?_, ?_⟩
        · have hdl : cs.dropLast = cs.take n := by
            rw [List.dropLast_eq_take]
            congr 1
            omega
          rwa [hdl]
        · have hsplit : cs.take n ++ cs.drop n = cs := List.take_append_drop n cs
          rw [hdrop] at hsplit
          rw [← hsplit]
          simp
    · rintro (⟨hlen, _⟩ | ⟨hlen, _, hlast⟩)
      · have hdrop : cs.drop n = [] := List.drop_eq_nil_iff.mpr (le_of_eq hlen)
        simp [hdrop]
      · have hne : cs ≠ [] := by
          intro hnil
          rw [hnil] at hlen
          simp at hlen
        have hgl : cs.getLast hne = '\n' := by
          have := List.getLast?_eq_getLast cs hne
          rw [hlast] at this
          exact (Option.some_inj.mp this).symm
        have hsplit : cs.dropLast ++ [cs.getLast hne] = cs :=
          List.dropLast_append_getLast hne
        have hdllen : cs.dropLast.length = n := by
          rw [List.length_dropLast]
          omega
        have hdrop : cs.drop n = ['\n'] := by
          rw [← hsplit, ← hdllen, List.drop_left, hgl]
        simp [hdrop]
  · simp only [if_neg h]
    constructor
    · intro hh
      exact absurd hh (by simp)
    · rintro (⟨hlen, hall⟩ | ⟨hlen, hall, hlast⟩)
      · refine absurd ⟨le_of_eq hlen.symm, ?_⟩ h
        rw [List.take_of_length_le (le_of_eq hlen)]
        exact hall
      · refine absurd ⟨by omega, ?_⟩ h
        have hdl : cs.dropLast = cs.take n := by
          rw [List.dropLast_eq_take]
          congr 1
          omega
        rwa [hdl] at hall

theorem phoneRegexSearch_eq_optNL (cs : List Char) :
    phoneRegexSearch cs = plusSevenTenDigitsOptNL cs := by
  rcases cs with _ | ⟨c1, _ | ⟨c2, _ | ⟨r, rs⟩⟩⟩
  · rfl
  · simp [phoneRegexSearch, plusSevenTenDigitsOptNL, plusSevenTenDigits]
  · have h10 : digitsThenEnd 10 ([] : List Char) = false := by decide
    simp [phoneRegexSearch, plusSevenTenDigitsOptNL, plusSevenTenDigits, h10]
  · rw [Bool.eq_iff_iff]
    simp only [phoneRegexSearch, Bool.and_eq_true, beq_iff_eq, digitsThenEnd_iff,
      plusSevenTenDigitsOptNL, plusSevenTenDigits, Bool.or_eq_true,
      List.dropLast_cons₂, List.getLast?_cons_cons, List.length_cons,
      List.length_dropLast, Nat.add_sub_cancel]
    constructor
    · rintro ⟨hpm, (⟨hl, ha⟩ | ⟨hl, ha, hg⟩)⟩
      · exact Or.inl ⟨⟨hpm, hl⟩, ha⟩
      · exact Or.inr ⟨hg, ⟨hpm, by omega⟩, ha⟩
    · rintro (⟨⟨hpm, hl⟩, ha⟩ | ⟨hg, ⟨hpm, hl⟩, ha⟩)
      · exact ⟨hpm, Or.inl ⟨hl, ha⟩⟩
      · exact ⟨hpm, Or.inr ⟨by omega, ha, hg⟩⟩

/-- C3, counterexample: the claim says the validator accepts exactly the
strings `+7` followed by ten digits and nothing else, but the code also
accepts a single trailing newline, because Python's `$` anchor matches just
before a newline at the end of the string. -/
theorem c3_trailing_newline_counterexample :
    phone_number_validator "+79098087060\n" = .ok () ∧
      plusSevenTenDigits ("+79098087060\n").data = false := by
  exact ⟨rfl, by decide⟩

/-- C3 (amended): the phone-number validator accepts a string iff it is the
literal characters `+7` followed by exactly 10 decimal digits, optionally
followed by one trailing newline; otherwise it fails with a validation error
carrying the offending value. -/
theorem c3_phone_validator_amended (s : String) :
    phone_number_validator s =
      if plusSevenTenDigitsOptNL s.data then .ok ()
      else .error (.badPhone s) := by
  rw [phone_number_validator, phoneRegexSearch_eq_optNL]

/-- C8: the level validator accepts an integer n iff `0 ≤ n ≤ 100`,
otherwise it signals a validation failure. -/
theorem c8_check_level_iff (n : Int) :
    check_level n = .ok () ↔ 0 ≤ n ∧ n ≤ 100 := by
  rw [check_level]
  split
  · rename_i h
    constructor
    · intro hh
      cases hh
    · intro hh
      omega
  · rename_i h
    constructor
    · intro _
      omega
    · intro _
      rfl

/-- C9: the created-timestamp and modified-timestamp validators accept `t`
iff `t ≤ now`; a timestamp strictly after the current time fails with a
validation error carrying the offending value. -/
theorem c9_check_timestamps (now t : Int) :
    check_created now t =
        (if t ≤ now then .ok () else .error (.futureCreated t)) ∧
      check_modified now t =
        (if t ≤ now then .ok () else .error (.futureModified t)) := by
  constructor
  · rw [check_created]
    split
    · rw [if_neg (by omega)]
    · rw [if_pos (by omega)]
  · rw [check_modified]
    split
    · rw [if_neg (by omega)]
    · rw [if_pos (by omega)]

/-- Keyword arguments of `Client.objects.create(**kwargs)`: the user id is
required (one-to-one field), the timestamps are optional and default to
`get_datetime` when absent. -/
structure ClientKwargs where
  user : Nat
  created : Option Int
  modified : Option Int
deriving DecidableEq, Repr

/-- A persisted row of the `Client` table (models.py:499). -/
structure ClientRow where
  id : Nat
  user : Nat
  created : Int
  modified : Int
deriving DecidableEq, Repr

/-- `Manager.check_and_validate` (models.py:443-453): runs the validator on
`kwargs.get(value)` only when the key `value` is present in `kwargs`;
an absent key skips the validator entirely. -/
def check_and_validate (arg : Option Int)
    (validator : Int → Except ValidationError Unit) :
    Except ValidationError Unit :=
  match arg with
  | some v => validator v
  | none => .ok ()

/-- `Client.objects.create` (models.py:455-466, installed at models.py:514
with validators `(('created', check_created), ('modified', check_modified))`):
runs `check_and_validate` for each registered pair, then the base
`Manager.create`, which inserts a row filling absent fields from their
defaults (`get_datetime` for both timestamps, `uuid4` for the id, the latter
passed here as `newId`).  A raised `ValidationError` aborts before the base
create runs, so an error persists nothing.  The base create also calls the
installed custom save, which re-validates the stored values; that
re-validation cannot change the result (a default-filled value is the
current time, a supplied value was already checked), so it is omitted here
and modelled in `clientCreateFull`, with `clientCreateFull_result` proving
the two agree. -/
def clientCreate (now : Int) (newId : Nat) (db : List ClientRow)
    (kw : ClientKwargs) : Except ValidationError (List ClientRow) :=
  match check_and_validate kw.created (check_created now) with
  | .error e => .error e
  | .ok () =>
    match check_and_validate kw.modified (check_modified now) with
    | .error e => .error e
    | .ok () =>
      .ok (db ++ [{ id := newId, user := kw.user,
                    created := kw.created.getD now,
                    modified := kw.modified.getD now }])

/-- `Client.save` (models.py:481-494, installed at models.py:515): runs each
registered validator on the current attribute value unconditionally, then
the base save. -/
def clientSave (now : Int) (row : ClientRow) : Except ValidationError Unit :=
  match check_created now row.created with
  | .error e => .error e
  | .ok () => check_modified now row.modified

/-- A persisted row of the `Club` table (models.py:131). -/
structure ClubRow where
  id : Nat
  name : String
  phone_number : String
  created : Int
  modified : Int
deriving DecidableEq, Repr

/-- `Club.objects.create(**kwargs)`: `Club` declares no custom manager and
no custom save (models.py:131-162), so creation is the base Django
`Model.objects.create`, which inserts the row without invoking any field
validator (a field's `validators=[...]` list only runs in `full_clean`,
which the base create/save path never calls).  Absent timestamps are filled
from the `get_datetime` default. -/
def clubCreate (now : Int) (newId : Nat) (db : List ClubRow)
    (name phone : String) (created modified : Option Int) : List ClubRow :=
  db ++ [{ id := newId, name := name, phone_number := phone,
           created := created.getD now, modified := modified.getD now }]

/-- A persisted row of the `BoardGame` table (models.py:165). -/
structure BoardGameRow where
  id : Nat
  name : String
  level : Int
  created : Int
  modified : Int
deriving DecidableEq, Repr

/-- `BoardGame.objects.create(**kwargs)`: like `Club`, `BoardGame` has no
custom manager or save (models.py:165-197), so the base create inserts the
row without invoking `check_level`. -/
def boardGameCreate (now : Int) (newId : Nat) (db : List BoardGameRow)
    (name : String) (level : Int) (created modified : Option Int) :
    List BoardGameRow :=
  db ++ [{ id := newId, name := name, level := level,
           created := created.getD now, modified := modified.getD now }]

/-- Whether an optional timestamp argument passes its validator; absent
arguments pass vacuously because `check_and_validate` skips them. -/
def passesWhenPresent (now : Int) (o : Option Int) : Bool :=
  match o with
  | none => true
  | some t => decide (t ≤ now)

/-- Discriminates the success of an `Except` computation. -/
def exceptIsOk {ε α : Type} : Except ε α → Bool
  | .ok _ => true
  | .error _ => false

/-- C2, counterexample: `Club.objects.create` persists a phone number the
phone validator rejects, because `Club` has no custom manager and the base
create path runs no field validators (the repository's own test suite
creates a `Club` with `phone_number='ABC'` successfully,
tests/test_models.py).  This refutes the claim that the validator is
invoked on every create path. -/
theorem c2_club_create_skips_validator_counterexample :
    clubCreate 0 7 [] "DEF" "ABC" none none =
        [{ id := 7, name := "DEF", phone_number := "ABC",
           created := 0, modified := 0 }] ∧
      phone_number_validator "ABC" = .error (.badPhone "ABC") :=
  ⟨rfl, rfl⟩

/-- C2 (amended): only `Client` installs validating create/save hooks: its
create validates the `created`/`modified` arguments exactly when they are
supplied, and its save always validates both stored timestamps; the
`Club.phone_number` and `BoardGame.level` validators (and the timestamp
validators of every other entity) are declared as field validators only and
are not invoked on the base create path, which persists the row
unconditionally. -/
theorem c2_amended_validation_paths (now : Int) (newId : Nat)
    (cdb : List ClientRow) (kw : ClientKwargs) (row : ClientRow)
    (gdb : List ClubRow) (bdb : List BoardGameRow)
    (nm ph bn : String) (lvl : Int) (c m : Option Int) :
    (exceptIsOk (clientCreate now newId cdb kw) =
        (passesWhenPresent now kw.created && passesWhenPresent now kw.modified))
  ∧ (clientSave now row = .ok () ↔ row.created ≤ now ∧ row.modified ≤ now)
  ∧ (clubCreate now newId gdb nm ph c m =
      gdb ++ [{ id := newId, name := nm, phone_number := ph,
                created := c.getD now, modified := m.getD now }])
  ∧ (boardGameCreate now newId bdb bn lvl c m =
      bdb ++ [{ id := newId, name := bn, level := lvl,
                created := c.getD now, modified := m.getD now }]) := by
  refine ⟨?_, ?_, rfl, rfl⟩
  · rcases kw with ⟨u, c', m'⟩
    rcases c' with _ | t1 <;> rcases m' with _ | t2 <;>
      simp only [clientCreate, check_and_validate, check_created,
        check_modified, passesWhenPresent, exceptIsOk] <;>
      (try split_ifs) <;> simp_all
  · rw [clientSave, check_created, check_modified]
    split_ifs <;> simp_all

/-- One validator invocation performed during a write path: the guarded
field's name and the value the validator received. -/
structure ValidatorCall where
  field : String
  value : Int
deriving DecidableEq, Repr

/-- The full `Client.objects.create(**kwargs)` path, instrumented with the
ordered list of validator invocations it performs.  The generated manager's
`create` (models.py:455-466) invokes a validator only for keys present in
`kwargs`; a raised error propagates before anything else runs.  The base
`QuerySet.create` then constructs the instance, filling absent fields from
their `get_datetime` defaults, and calls `obj.save()` - which is the
generated save (models.py:481-494, installed at models.py:515) and invokes
every registered validator on the stored attribute values unconditionally
before the base save writes the row. -/
def clientCreateFull (now : Int) (newId : Nat) (db : List ClientRow)
    (kw : ClientKwargs) :
    List ValidatorCall × Except ValidationError (List ClientRow) :=
  let mgrCreated : List ValidatorCall :=
    match kw.created with
    | some t => [⟨"created", t⟩]
    | none => []
  match check_and_validate kw.created (check_created now) with
  | .error e => (mgrCreated, .error e)
  | .ok () =>
    let mgrModified : List ValidatorCall :=
      match kw.modified with
      | some t => [⟨"modified", t⟩]
      | none => []
    match check_and_validate kw.modified (check_modified now) with
    | .error e => (mgrCreated ++ mgrModified, .error e)
    | .ok () =>
      let created := kw.created.getD now
      let modified := kw.modified.getD now
      match check_created now created with
      | .error e =>
        (mgrCreated ++ mgrModified ++ [⟨"created", created⟩], .error e)
      | .ok () =>
        match check_modified now modified with
        | .error e =>
          (mgrCreated ++ mgrModified ++
              [⟨"created", created⟩, ⟨"modified", modified⟩], .error e)
        | .ok () =>
          (mgrCreated ++ mgrModified ++
              [⟨"created", created⟩, ⟨"modified", modified⟩],
            .ok (db ++ [{ id := newId, user := kw.user,
                          created := created, modified := modified }]))

theorem clientCreateFull_result (now : Int) (newId : Nat)
    (db : List ClientRow) (kw : ClientKwargs) :
    (clientCreateFull now newId db kw).2 = clientCreate now newId db kw := by
  rcases kw with ⟨u, c, m⟩
  rcases c with _ | t1 <;> rcases m with _ | t2 <;>
    simp only [clientCreateFull, clientCreate, check_and_validate,
      check_created, check_modified] <;>
    (try split_ifs) <;> simp_all <;> omega

/-- C10, counterexample: creating a `Client` with both timestamps omitted
still invokes `check_created` (and `check_modified`) on the default-filled
values, because the base create calls the installed custom save, which
validates the stored values unconditionally - refuting the claim that an
omitted field is filled from the default "without any validator being
invoked". -/
theorem c10_default_validated_counterexample :
    clientCreateFull 0 7 [] { user := 2, created := none, modified := none } =
        ([⟨"created", 0⟩, ⟨"modified", 0⟩],
          .ok [{ id := 7, user := 2, created := 0, modified := 0 }])
  ∧ ⟨"created", (0 : Int)⟩ ∈
      (clientCreateFull 0 7 []
        { user := 2, created := none, modified := none }).1 :=
  ⟨rfl, by decide⟩

/-- C10 (amended): the conditional manager-stage validation of
`Client.objects.create` runs only on explicitly supplied timestamp
arguments, but the base create then calls the installed custom save, which
invokes both timestamp validators unconditionally on the stored values.  An
omitted timestamp is therefore filled from the current-time default and
then validated by the save hook, where it always passes, so the call still
cannot fail on that field; a supplied strictly-future timestamp makes the
call fail at the manager stage, before anything is written. -/
theorem c10_amended_create_validation (now : Int) (newId u : Nat)
    (db : List ClientRow) (t : Int) :
    clientCreateFull now newId db { user := u, created := none, modified := none } =
        ([⟨"created", now⟩, ⟨"modified", now⟩],
          .ok (db ++ [{ id := newId, user := u, created := now, modified := now }]))
  ∧ (clientCreateFull now newId db { user := u, created := some t, modified := none } =
      if t > now then ([⟨"created", t⟩], .error (.futureCreated t))
      else ([⟨"created", t⟩, ⟨"created", t⟩, ⟨"modified", now⟩],
        .ok (db ++ [{ id := newId, user := u, created := t, modified := now }])))
  ∧ (clientCreateFull now newId db { user := u, created := none, modified := some t } =
      if t > now then ([⟨"modified", t⟩], .error (.futureModified t))
      else ([⟨"modified", t⟩, ⟨"created", now⟩, ⟨"modified", t⟩],
        .ok (db ++ [{ id := newId, user := u, created := now, modified := t }]))) := by
  refine ⟨by simp [clientCreateFull, check_and_validate, check_created, check_modified], ?_, ?_⟩ <;>
    · simp only [clientCreateFull, check_and_validate, check_created, check_modified]
      by_cases h : t > now <;> simp [h]

/-- A row of an association (join) table, reduced to its (left, right)
reference pair; the extra id/timestamp columns play no role in uniqueness. -/
structure AssocPair where
  left : Nat
  right : Nat
deriving DecidableEq, Repr

/-- The uniqueness violation the storage layer raises when an insert hits a
`unique_together` constraint (the spec's `DuplicateAssociation`). -/
inductive AssocError where
  | DuplicateAssociation
deriving DecidableEq, Repr

/-- `ClubToGame.Meta.unique_together = (('club', 'game'),)` (models.py:328). -/
def clubToGame_uniqueTogether : Bool := true

/-- `SetToGame.Meta.unique_together = (('set', 'game'),)` (models.py:360). -/
def setToGame_uniqueTogether : Bool := true

/-- `GameGenre.Meta.unique_together = (('game', 'genre'),)` (models.py:392). -/
def gameGenre_uniqueTogether : Bool := true

/-- `ClubAddress.Meta.unique_together = (('club', 'address'),)` (models.py:424). -/
def clubAddress_uniqueTogether : Bool := true

/-- `ClubClient.Meta` (models.py:574-579) declares no `unique_together`. -/
def clubClient_uniqueTogether : Bool := false

/-- Inserting a row into an association table: the insert fails with a
uniqueness violation iff the table declares `unique_together` on its pair
and a row with the same pair already exists; otherwise the row is appended.
An error leaves the table as it was (the error result carries no table). -/
def insertAssoc (uniqueTogether : Bool) (tbl : List AssocPair) (l r : Nat) :
    Except AssocError (List AssocPair) :=
  if uniqueTogether && tbl.any (fun p => p.left == l && p.right == r)
  then .error .DuplicateAssociation
  else .ok (tbl ++ [⟨l, r⟩])

/-- C1, counterexample: `ClubClient` has no `unique_together` constraint, so
inserting a second row with the same (club, client) pair succeeds and the
table ends with two identical pairs, contradicting the claim that every
association table rejects duplicates with `DuplicateAssociation`. -/
theorem c1_clubclient_duplicate_counterexample :
    insertAssoc clubClient_uniqueTogether [⟨1, 2⟩] 1 2 =
      .ok [⟨1, 2⟩, ⟨1, 2⟩] := rfl

/-- C1 (amended): for the four association tables that declare
`unique_together` (ClubToGame, SetToGame, GameGenre, ClubAddress), inserting
a second row with an existing (left, right) pair fails with
`DuplicateAssociation` and writes nothing; `ClubClient` declares no such
constraint, and the duplicate insert succeeds, appending a second row. -/
theorem c1_amended_unique_pairs (tbl : List AssocPair) (l r : Nat)
    (h : tbl.any (fun p => p.left == l && p.right == r) = true) :
    insertAssoc clubToGame_uniqueTogether tbl l r = .error .DuplicateAssociation
  ∧ insertAssoc setToGame_uniqueTogether tbl l r = .error .DuplicateAssociation
  ∧ insertAssoc gameGenre_uniqueTogether tbl l r = .error .DuplicateAssociation
  ∧ insertAssoc clubAddress_uniqueTogether tbl l r = .error .DuplicateAssociation
  ∧ insertAssoc clubClient_uniqueTogether tbl l r = .ok (tbl ++ [⟨l, r⟩]) := by
  refine ⟨?_, ?_, ?_, ?_, ?_⟩ <;>
    simp [insertAssoc, clubToGame_uniqueTogether, setToGame_uniqueTogether,
      gameGenre_uniqueTogether, clubAddress_uniqueTogether,
      clubClient_uniqueTogether, h]

/-- Witness for `c1_amended_unique_pairs` at the one-row table `[(1, 2)]`. -/
theorem c1_amended_unique_pairs_witness :
    ([(⟨1, 2⟩ : AssocPair)].any (fun p => p.left == 1 && p.right == 2) = true)
  ∧ (insertAssoc clubToGame_uniqueTogether [⟨1, 2⟩] 1 2 = .error .DuplicateAssociation
    ∧ insertAssoc setToGame_uniqueTogether [⟨1, 2⟩] 1 2 = .error .DuplicateAssociation
    ∧ insertAssoc gameGenre_uniqueTogether [⟨1, 2⟩] 1 2 = .error .DuplicateAssociation
    ∧ insertAssoc clubAddress_uniqueTogether [⟨1, 2⟩] 1 2 = .error .DuplicateAssociation
    ∧ insertAssoc clubClient_uniqueTogether [⟨1, 2⟩] 1 2 = .ok [⟨1, 2⟩, ⟨1, 2⟩]) :=
  ⟨by decide, c1_amended_unique_pairs [⟨1, 2⟩] 1 2 (by decide)⟩

/-- A row of `ClubToGame` reduced to its foreign keys (models.py:313-314). -/
structure ClubToGameRow where
  club : Nat
  game : Nat
deriving DecidableEq, Repr

/-- A row of `ClubAddress` reduced to its foreign keys (models.py:409-410). -/
structure ClubAddressRow where
  club : Nat
  address : Nat
deriving DecidableEq, Repr

/-- A row of `ClubClient` reduced to its foreign keys (models.py:571-572). -/
structure ClubClientRow where
  club : Nat
  client : Nat
deriving DecidableEq, Repr

/-- The database state the membership views read and write: club primary
keys, client rows, and the three association tables referencing `Club`. -/
structure DB where
  clubs : List Nat
  clients : List ClientRow
  clubToGame : List ClubToGameRow
  clubAddress : List ClubAddressRow
  clubClient : List ClubClientRow
deriving DecidableEq, Repr

/-- A club identifier taken from the request: it either parses as a UUID
(`valid`, carrying the key it denotes) or it is malformed (`malformed`,
any string the UUID field cannot parse). -/
inductive RawId where
  | malformed
  | valid (id : Nat)
deriving DecidableEq, Repr

/-- The exceptions `Club.objects.get(id=id_)` can raise: a
`ValidationError` when the identifier string is not a parseable UUID, and
`Club.DoesNotExist` when no row has that key. -/
inductive GetClubError where
  | validationError
  | doesNotExist
deriving DecidableEq, Repr

/-- `Club.objects.get(id=id_)` as called in views.py:264: raises
`ValidationError` on a malformed identifier, `DoesNotExist` when the club
is absent, and returns the club otherwise. -/
def getClub (db : DB) (rid : RawId) : Except GetClubError Nat :=
  match rid with
  | .malformed => .error .validationError
  | .valid i => if db.clubs.contains i then .ok i else .error .doesNotExist

/-- `client.clubs.all()` (views.py:269): the clubs reachable from the
client through the `ClubClient` association rows. -/
def clubsOfClient (db : DB) (clientId : Nat) : List Nat :=
  (db.clubClient.filter (fun row => row.client == clientId)).map
    (fun row => row.club)

/-- `client.clubs.add(club)` (views.py:273): Django's many-to-many `add`
inserts the through row only for pairs not already present. -/
def addClubClient (db : DB) (clientId clubId : Nat) : DB :=
  if db.clubClient.any (fun row => row.club == clubId && row.client == clientId)
  then db
  else { db with clubClient := db.clubClient ++ [⟨clubId, clientId⟩] }

/-- HTTP method of the request. -/
inductive Method where
  | get
  | post
deriving DecidableEq, Repr

/-- Response of the `join` view: `redirect('clubs')`, `redirect('profile')`,
the rendered join page, or an exception that escapes the view. -/
inductive JoinOutcome where
  | redirectClubs
  | redirectProfile
  | renderJoin (club : Nat)
  | unhandledError
deriving DecidableEq, Repr

/-- The `join` view (views.py:249-283).  `Client.objects.get(user=...)` is
outside any try-block, so a missing client row escapes as an unhandled
exception.  An absent (or empty, hence falsy) `id` query parameter
redirects to the club list; `Club.objects.get` failures of both kinds are
caught and also redirect to the club list (the `if not club` branch at
views.py:267 is unreachable, a fetched model instance being always truthy).
An already-joined club redirects to the profile; otherwise a POST adds the
association row and runs `client.save()`, whose generated validators may
raise out of the view. -/
def join (now : Int) (db : DB) (user : Nat) (method : Method)
    (idParam : Option RawId) : DB × JoinOutcome :=
  match db.clients.find? (fun c => c.user == user) with
  | none => (db, .unhandledError)
  | some client =>
    match idParam with
    | none => (db, .redirectClubs)
    | some rid =>
      match getClub db rid with
      | .error _ => (db, .redirectClubs)
      | .ok clubId =>
        if (clubsOfClient db client.id).contains clubId then
          (db, .redirectProfile)
        else
          match method with
          | .get => (db, .renderJoin clubId)
          | .post =>
            let db2 := addClubClient db client.id clubId
            match clientSave now client with
            | .error _ => (db2, .unhandledError)
            | .ok () => (db2, .redirectProfile)

/-- Response of the `profile` view on POST: the rendered page carrying the
`form_errors` string computed by the view, or an escaped exception. -/
inductive ProfileOutcome where
  | rendered (formErrors : String)
  | unhandledError
deriving DecidableEq, Repr

/-- The POST branch of the `profile` view (views.py:219-231).  The `Join`
form's `ModelChoiceField` over `Club.objects.all()` makes `form.is_valid()`
false when the submitted value is absent, malformed, or matches no club
(`'Form validation error!'`).  With a valid form, `cleaned_data['club']` is
an existing club (the `'The club is not listed!'` branch is unreachable for
the required field and is not modelled); an existing association row yields
`'You already joined this club!'`, otherwise `ClubClient.objects.create`
(the base manager, no validation hooks) inserts the row and `form_errors`
stays `''`. -/
def profilePost (db : DB) (user : Nat) (clubField : Option RawId) :
    DB × ProfileOutcome :=
  match db.clients.find? (fun c => c.user == user) with
  | none => (db, .unhandledError)
  | some client =>
    match clubField with
    | none => (db, .rendered "Form validation error!")
    | some rid =>
      match getClub db rid with
      | .error _ => (db, .rendered "Form validation error!")
      | .ok clubId =>
        if db.clubClient.any
            (fun row => row.club == clubId && row.client == client.id) then
          (db, .rendered "You already joined this club!")
        else
          ({ db with clubClient := db.clubClient ++ [⟨clubId, client.id⟩] },
            .rendered "")

/-- Response of the `remove_from_joined` view; every constructor except
`unhandledError` ends with `redirect('profile')`, after flashing the
message noted in the model of the view. -/
inductive LeaveOutcome where
  | leftClub
  | notAMember
  | otherError
  | unhandledError
deriving DecidableEq, Repr

/-- The `remove_from_joined` view (views.py:286-307).  The `Client` lookup
precedes the try-block, so a missing client escapes.  Inside the try-block,
`ClubClient.objects.get` with no matching row raises `DoesNotExist`, caught
as `.notAMember` (message `'You are not a member of this club.'`); exactly
one matching row is deleted (`.leftClub`, `'You have successfully left the
club.'`); several matching rows (possible, `ClubClient` having no
uniqueness constraint) raise `MultipleObjectsReturned`, swallowed by the
generic `except Exception` branch (`.otherError`).  All three paths then
`redirect('profile')`. -/
def remove_from_joined (db : DB) (user : Nat) (clubId : Nat) :
    DB × LeaveOutcome :=
  match db.clients.find? (fun c => c.user == user) with
  | none => (db, .unhandledError)
  | some client =>
    match db.clubClient.filter
        (fun row => row.club == clubId && row.client == client.id) with
    | [] => (db, .notAMember)
    | [_] =>
      ({ db with clubClient :=
          (db.clubClient.filter
            (fun row => !(row.club == clubId && row.client == client.id))) },
        .leftClub)
    | _ => (db, .otherError)

/-- Deleting a `Club` row: each of `ClubToGame.club`, `ClubAddress.club`
and `ClubClient.club` is a `ForeignKey(..., on_delete=models.CASCADE)`
(models.py:313, 409, 571), so the delete removes every association row
whose `club` column references the deleted key. -/
def deleteClub (db : DB) (clubId : Nat) : DB :=
  { db with
    clubs := db.clubs.filter (fun c => c != clubId)
    clubToGame := db.clubToGame.filter (fun row => row.club != clubId)
    clubAddress := db.clubAddress.filter (fun row => row.club != clubId)
    clubClient := db.clubClient.filter (fun row => row.club != clubId) }

/-- Number of membership rows for one (club, client) pair. -/
def membershipCount (db : DB) (clubId clientId : Nat) : Nat :=
  (db.clubClient.filter
    (fun row => row.club == clubId && row.client == clientId)).length

theorem clubsOfClient_contains (db : DB) (clientId clubId : Nat) :
    (clubsOfClient db clientId).contains clubId =
      db.clubClient.any
        (fun row => row.club == clubId && row.client == clientId) := by
  rw [Bool.eq_iff_iff]
  simp only [clubsOfClient, List.contains, List.elem_iff,
    List.mem_map, List.mem_filter, List.any_eq_true, Bool.and_eq_true,
    beq_iff_eq]
  constructor
  · rintro ⟨r, ⟨hr, hc⟩, hb⟩
    exact ⟨r, hr, hb, hc⟩
  · rintro ⟨r, hr, hb, hc⟩
    exact ⟨r, ⟨hr, hc⟩, hb⟩

/-- C7: deleting a club removes every `ClubToGame`, `ClubAddress` and
`ClubClient` row that references it: after the delete, no row of those
tables refers to the deleted club's key. -/
theorem c7_delete_club_cascades (db : DB) (clubId : Nat) :
    ((deleteClub db clubId).clubToGame.all (fun row => row.club != clubId) = true)
  ∧ ((deleteClub db clubId).clubAddress.all (fun row => row.club != clubId) = true)
  ∧ ((deleteClub db clubId).clubClient.all (fun row => row.club != clubId) = true) := by
  refine ⟨?_, ?_, ?_⟩ <;>
    · rw [List.all_eq_true]
      intro x hx
      exact (List.mem_filter.mp hx).2

/-- C5: a leave request for a (client, club) pair with no membership row
takes the `DoesNotExist` branch: the view reports the not-a-member message,
raises no unhandled error, still resolves (redirecting to the profile), and
changes no state. -/
theorem c5_leave_never_joined (db : DB) (user clubId : Nat) (cl : ClientRow)
    (hfind : db.clients.find? (fun c => c.user == user) = some cl)
    (hnone : db.clubClient.filter
        (fun row => row.club == clubId && row.client == cl.id) = []) :
    remove_from_joined db user clubId = (db, .notAMember) := by
  simp only [remove_from_joined, hfind, hnone]

/-- C6: in the `join` view, a malformed club identifier and a well-formed
identifier of a non-existent club are treated identically: both are caught
by the same handler and redirect to the club list, leaving the state
unchanged, with no unhandled error. -/
theorem c6_join_malformed_eq_missing (now : Int) (db : DB) (user i : Nat)
    (m : Method) (cl : ClientRow)
    (hfind : db.clients.find? (fun c => c.user == user) = some cl)
    (habs : db.clubs.contains i = false) :
    join now db user m (some .malformed) = (db, .redirectClubs)
  ∧ join now db user m (some (.valid i)) = (db, .redirectClubs) := by
  constructor
  · simp only [join, hfind, getClub]
  · simp only [join, hfind, getClub, habs]
    simp

/-- A concrete database for the witnesses: one club (key 5), one client
(key 1, user 2, both timestamps 0), and no association rows. -/
def sampleDB : DB :=
  { clubs := [5]
    clients := [{ id := 1, user := 2, created := 0, modified := 0 }]
    clubToGame := []
    clubAddress := []
    clubClient := [] }

/-- Witness for `c5_leave_never_joined` on `sampleDB`. -/
theorem c5_leave_never_joined_witness :
    (sampleDB.clients.find? (fun c => c.user == 2) =
        some { id := 1, user := 2, created := 0, modified := 0 })
  ∧ (sampleDB.clubClient.filter (fun row => row.club == 5 && row.client == 1) = [])
  ∧ remove_from_joined sampleDB 2 5 = (sampleDB, .notAMember) :=
  ⟨rfl, rfl,
    c5_leave_never_joined sampleDB 2 5
      { id := 1, user := 2, created := 0, modified := 0 } rfl rfl⟩

/-- Witness for `c6_join_malformed_eq_missing` on `sampleDB` with the
absent club key 9. -/
theorem c6_join_malformed_eq_missing_witness :
    (sampleDB.clients.find? (fun c => c.user == 2) =
        some { id := 1, user := 2, created := 0, modified := 0 })
  ∧ (sampleDB.clubs.contains 9 = false)
  ∧ join 0 sampleDB 2 .post (some .malformed) = (sampleDB, .redirectClubs)
  ∧ join 0 sampleDB 2 .post (some (.valid 9)) = (sampleDB, .redirectClubs) := by
  refine ⟨rfl, rfl, ?_⟩
  have h := c6_join_malformed_eq_missing 0 sampleDB 2 9 .post
    { id := 1, user := 2, created := 0, modified := 0 } rfl rfl
  exact ⟨h.1, h.2⟩

/-- C4: joining the same club twice in sequence leaves exactly one
membership row for that (client, club) pair.  Through the `join` view the
second call takes the already-member branch: it writes nothing and resolves
with the profile redirect rather than failing; through the `profile` form
handler the second call likewise writes nothing and reports the
already-joined message. -/
theorem c4_join_twice_one_row (now : Int) (db : DB) (user clubId : Nat)
    (cl : ClientRow)
    (hfind : db.clients.find? (fun c => c.user == user) = some cl)
    (hcr : cl.created ≤ now) (hmd : cl.modified ≤ now)
    (hclub : db.clubs.contains clubId = true)
    (hnot : db.clubClient.any
        (fun row => row.club == clubId && row.client == cl.id) = false) :
    (join now (join now db user .post (some (.valid clubId))).1 user .post
        (some (.valid clubId))).1
      = (join now db user .post (some (.valid clubId))).1
  ∧ (join now (join now db user .post (some (.valid clubId))).1 user .post
        (some (.valid clubId))).2 = .redirectProfile
  ∧ membershipCount (join now (join now db user .post (some (.valid clubId))).1
        user .post (some (.valid clubId))).1 clubId cl.id = 1
  ∧ (profilePost (profilePost db user (some (.valid clubId))).1 user
        (some (.valid clubId))).1 = (profilePost db user (some (.valid clubId))).1
  ∧ (profilePost (profilePost db user (some (.valid clubId))).1 user
        (some (.valid clubId))).2 = .rendered "You already joined this club!"
  ∧ membershipCount (profilePost (profilePost db user (some (.valid clubId))).1
        user (some (.valid clubId))).1 clubId cl.id = 1 := by
  have hgc : getClub db (.valid clubId) = .ok clubId := by
    simp only [getClub]
    rw [if_pos hclub]
  have hsave : clientSave now cl = .ok () := by
    rw [clientSave, check_created, check_modified]
    rw [if_neg (by omega), if_neg (by omega)]
  have hmem0 : (clubsOfClient db cl.id).contains clubId = false := by
    rw [clubsOfClient_contains]
    exact hnot
  have hfilter0 : db.clubClient.filter
      (fun r => r.club == clubId && r.client == cl.id) = [] := by
    rw [List.filter_eq_nil_iff]
    intro a ha hpa
    have hta : db.clubClient.any
        (fun r => r.club == clubId && r.client == cl.id) = true :=
      List.any_eq_true.mpr ⟨a, ha, hpa⟩
    rw [hta] at hnot
    cases hnot
  have h1 : join now db user .post (some (.valid clubId)) =
      ({ db with clubClient := db.clubClient ++ [⟨clubId, cl.id⟩] },
        .redirectProfile) := by
    simp only [join, hfind, hgc, hmem0, addClubClient, hnot, hsave]
    simp
  have hfind1 : ({ db with clubClient := db.clubClient ++ [⟨clubId, cl.id⟩] }
      : DB).clients.find? (fun c => c.user == user) = some cl := hfind
  have hgc1 : getClub
      { db with clubClient := db.clubClient ++ [⟨clubId, cl.id⟩] }
      (.valid clubId) = .ok clubId := hgc
  have hany1 : ({ db with clubClient := db.clubClient ++ [⟨clubId, cl.id⟩] }
      : DB).clubClient.any
      (fun row => row.club == clubId && row.client == cl.id) = true := by
    simp [List.any_append]
  have hmem1 : (clubsOfClient
      { db with clubClient := db.clubClient ++ [⟨clubId, cl.id⟩] }
      cl.id).contains clubId = true := by
    rw [clubsOfClient_contains]
    exact hany1
  have h2 : join now
      ({ db with clubClient := db.clubClient ++ [⟨clubId, cl.id⟩] } : DB)
      user .post (some (.valid clubId)) =
      ({ db with clubClient := db.clubClient ++ [⟨clubId, cl.id⟩] },
        .redirectProfile) := by
    simp only [join, hfind1, hgc1, hmem1]
    simp
  have p1 : profilePost db user (some (.valid clubId)) =
      ({ db with clubClient := db.clubClient ++ [⟨clubId, cl.id⟩] },
        .rendered "") := by
    simp only [profilePost, hfind, hgc, hnot]
    simp
  have p2 : profilePost
      ({ db with clubClient := db.clubClient ++ [⟨clubId, cl.id⟩] } : DB)
      user (some (.valid clubId)) =
      ({ db with clubClient := db.clubClient ++ [⟨clubId, cl.id⟩] },
        .rendered "You already joined this club!") := by
    simp only [profilePost, hfind1, hgc1, hany1]
    simp
  have hcount : membershipCount
      ({ db with clubClient := db.clubClient ++ [⟨clubId, cl.id⟩] } : DB)
      clubId cl.id = 1 := by
    simp [membershipCount, List.filter_append, hfilter0]
  refine ⟨?_, ?_, ?_, ?_, ?_, ?_⟩ <;> simp [h1, h2, p1, p2, hcount]

/-- Witness for `c4_join_twice_one_row` on `sampleDB` (club 5, client 1). -/
theorem c4_join_twice_one_row_witness :
    (sampleDB.clients.find? (fun c => c.user == 2) =
        some { id := 1, user := 2, created := 0, modified := 0 })
  ∧ ((0 : Int) ≤ 0)
  ∧ (sampleDB.clubs.contains 5 = true)
  ∧ (sampleDB.clubClient.any (fun row => row.club == 5 && row.client == 1) = false)
  ∧ ((join 0 (join 0 sampleDB 2 .post (some (.valid 5))).1 2 .post
        (some (.valid 5))).1 = (join 0 sampleDB 2 .post (some (.valid 5))).1
    ∧ (join 0 (join 0 sampleDB 2 .post (some (.valid 5))).1 2 .post
        (some (.valid 5))).2 = .redirectProfile
    ∧ membershipCount (join 0 (join 0 sampleDB 2 .post (some (.valid 5))).1
        2 .post (some (.valid 5))).1 5 1 = 1
    ∧ (profilePost (profilePost sampleDB 2 (some (.valid 5))).1 2
        (some (.valid 5))).1 = (profilePost sampleDB 2 (some (.valid 5))).1
    ∧ (profilePost (profilePost sampleDB 2 (some (.valid 5))).1 2
        (some (.valid 5))).2 = .rendered "You already joined this club!"
    ∧ membershipCount (profilePost (profilePost sampleDB 2 (some (.valid 5))).1
        2 (some (.valid 5))).1 5 1 = 1) :=
  ⟨rfl, by decide, rfl, rfl,
    c4_join_twice_one_row 0 sampleDB 2 5
      { id := 1, user := 2, created := 0, modified := 0 }
      rfl (by decide) (by decide) rfl rfl⟩
